import Mathlib

/-!
Shallow embedding of the Construction Time Tracking API (`src/main.py`,
`src/schemas.py`) over an explicit document-store state.

Conventions of the embedding:
* A MongoDB `ObjectId` is represented by its 24-character hexadecimal
  string; `to_object_id` mirrors `bson.ObjectId`'s acceptance of exactly
  such strings (anything else raises, surfaced as HTTP 400 "Invalid id").
* UTC instants are integers counting microseconds; `datetime.now` becomes
  an explicit `now : Int` parameter of the handlers that read the clock.
* `int(timedelta.total_seconds())` is truncation toward zero of the
  microsecond difference divided by 10^6, i.e. `Int.tdiv`.
* The generated identifier of an insert becomes an explicit `newId`
  parameter of the handlers that insert.
* Handlers return `Except HTTPError response × DB`: the pair's second
  component is the store state after the call, so that state changes made
  before an error are observable.
-/

namespace CTT

/-- An HTTP error response: status code plus the detail message, as raised
via `HTTPException(status_code, detail)` in `main.py`. -/
structure HTTPError where
  status : Nat
  detail : String
deriving Repr, DecidableEq

/-- A hexadecimal digit, as accepted by `bson.ObjectId`. -/
def isHexChar (c : Char) : Bool :=
  c.isDigit || (97 ≤ c.toNat && c.toNat ≤ 102) || (65 ≤ c.toNat && c.toNat ≤ 70)

/-- A well-formed ObjectId string: exactly 24 hexadecimal characters
(`bson.ObjectId.is_valid` for `str` input). -/
def isValidObjectId (s : String) : Bool :=
  s.data.length == 24 && s.data.all isHexChar

/-- Helper `to_object_id` from `main.py`: parse the id string, raising
HTTP 400 "Invalid id" when `bson.ObjectId` rejects it. -/
def to_object_id (s : String) : Except HTTPError String :=
  if isValidObjectId s then Except.ok s else Except.error ⟨400, "Invalid id"⟩

/-- Pydantic model `Project` from `schemas.py` (validated payload). -/
structure Project where
  name : String
  description : Option String := none
  client : Option String := none
deriving Repr, DecidableEq

/-- Pydantic model `Task` from `schemas.py` (validated payload). -/
structure Task where
  project_id : String
  name : String
  description : Option String := none
  status : String := "open"
deriving Repr, DecidableEq

/-- Pydantic model `TimeEntry` from `schemas.py` (validated payload). -/
structure TimeEntry where
  task_id : String
  user_id : Option String := none
  start_time : Int
  end_time : Option Int := none
  duration_sec : Option Int := none
  note : Option String := none
deriving Repr, DecidableEq

/-- A raw JSON-ish project-creation body before Pydantic validation:
each field either present or absent. -/
structure ProjectPayload where
  name : Option String := none
  description : Option String := none
  client : Option String := none
deriving Repr, DecidableEq

/-- Pydantic validation of a `Project` body: `name` is declared
`Field(...)` (required) with no further constraint, `description` and
`client` are optional.  `none` means the request is rejected with a
validation-error response before the handler runs. -/
def validate_project (p : ProjectPayload) : Option Project :=
  match p.name with
  | none => none
  | some n => some ⟨n, p.description, p.client⟩

/-- A stored document of the `project` collection. -/
structure ProjectDoc where
  _id : String
  name : String
  description : Option String
  client : Option String
deriving Repr, DecidableEq

/-- A stored document of the `task` collection. -/
structure TaskDoc where
  _id : String
  project_id : String
  name : String
  description : Option String
  status : String
deriving Repr, DecidableEq

/-- A stored document of the `timeentry` collection. -/
structure TimeEntryDoc where
  _id : String
  task_id : String
  user_id : Option String
  start_time : Int
  end_time : Option Int
  duration_sec : Option Int
  note : Option String
  updated_at : Option Int
deriving Repr, DecidableEq

/-- The document store: the three collections used by `main.py`. -/
structure DB where
  projects : List ProjectDoc
  tasks : List TaskDoc
  timeentries : List TimeEntryDoc
deriving Repr, DecidableEq

/-- Modelled from the spec: `create_document` of the document-store
gateway (`database.py`, not under `src/`) "inserts ... by collection
name", here on the `project` collection, storing the validated fields
under a generated identifier and returning that identifier. -/
def insertProject (db : DB) (p : Project) (newId : String) : String × DB :=
  (newId, { db with projects := db.projects ++ [⟨newId, p.name, p.description, p.client⟩] })

/-- Modelled from the spec: `create_document` of the document-store
gateway (`database.py`, not under `src/`) on the `task` collection. -/
def insertTask (db : DB) (t : Task) (newId : String) : String × DB :=
  (newId, { db with tasks := db.tasks ++ [⟨newId, t.project_id, t.name, t.description, t.status⟩] })

/-- Modelled from the spec: `create_document` of the document-store
gateway (`database.py`, not under `src/`) on the `timeentry` collection. -/
def insertTimeEntry (db : DB) (e : TimeEntry) (newId : String) : String × DB :=
  (newId, { db with timeentries := db.timeentries ++
    [⟨newId, e.task_id, e.user_id, e.start_time, e.end_time, e.duration_sec, e.note, none⟩] })

/-- Modelled from the spec: the `limit` behaviour of `get_documents` of
the document-store gateway (`database.py`, not under `src/`): "returns up
to `limit`" matching documents; `none` means no limit. -/
def applyLimit (limit : Option Nat) (xs : List α) : List α :=
  match limit with
  | none => xs
  | some n => xs.take n

/-- Python `int(timedelta.total_seconds())`: the microsecond difference divided
by 10^6 and truncated toward zero. -/
def durationSeconds (diffMicros : Int) : Int :=
  Int.tdiv diffMicros 1000000

/-- Response model `IdModel` from `main.py`. -/
structure IdModel where
  id : String
deriving Repr, DecidableEq

/-- A project record as returned by listings: `_id` popped and
re-surfaced as the string field `id`. -/
structure ProjectOut where
  id : String
  name : String
  description : Option String
  client : Option String
deriving Repr, DecidableEq

/-- A task record as returned by listings. -/
structure TaskOut where
  id : String
  project_id : String
  name : String
  description : Option String
  status : String
deriving Repr, DecidableEq

/-- A time-entry record as returned by listings and by `stop_timer`. -/
structure TimeEntryOut where
  id : String
  task_id : String
  user_id : Option String
  start_time : Int
  end_time : Option Int
  duration_sec : Option Int
  note : Option String
  updated_at : Option Int
deriving Repr, DecidableEq

/-- Response shaping `d["id"] = str(d.pop("_id"))` applied to a project document. -/
def projectOut (p : ProjectDoc) : ProjectOut :=
  ⟨p._id, p.name, p.description, p.client⟩

/-- Response shaping `d["id"] = str(d.pop("_id"))` applied to a task document. -/
def taskOut (t : TaskDoc) : TaskOut :=
  ⟨t._id, t.project_id, t.name, t.description, t.status⟩

/-- Response shaping `d["id"] = str(d.pop("_id"))` applied to a time-entry document. -/
def timeEntryOut (e : TimeEntryDoc) : TimeEntryOut :=
  ⟨e._id, e.task_id, e.user_id, e.start_time, e.end_time, e.duration_sec, e.note, e.updated_at⟩

/-- Endpoint `POST /api/projects` (`create_project` in `main.py`): persist the
validated project and return the generated identifier. -/
def create_project (db : DB) (project : Project) (newId : String) :
    Except HTTPError IdModel × DB :=
  let r := insertProject db project newId
  (Except.ok ⟨r.1⟩, r.2)

/-- Endpoint `GET /api/projects` (`list_projects` in `main.py`). -/
def list_projects (db : DB) (limit : Option Nat) : List ProjectOut :=
  (applyLimit limit db.projects).map projectOut

/-- Endpoint `POST /api/tasks` (`create_task` in `main.py`): parse `project_id`,
check the referenced project exists, then persist. -/
def create_task (db : DB) (task : Task) (newId : String) :
    Except HTTPError IdModel × DB :=
  match to_object_id task.project_id with
  | Except.error e => (Except.error e, db)
  | Except.ok oid =>
    match db.projects.find? (fun p => p._id == oid) with
    | none => (Except.error ⟨404, "Project not found"⟩, db)
    | some _ =>
      let r := insertTask db task newId
      (Except.ok ⟨r.1⟩, r.2)

/-- Endpoint `GET /api/tasks` (`list_tasks` in `main.py`): `if project_id:` keeps
the filter empty for `None` and for the empty string. -/
def list_tasks (db : DB) (project_id : Option String) (limit : Option Nat) : List TaskOut :=
  let docs :=
    match project_id with
    | some v => if v == "" then db.tasks else db.tasks.filter (fun t => t.project_id == v)
    | none => db.tasks
  (applyLimit limit docs).map taskOut

/-- Request model `StartTimerRequest` from `main.py`. -/
structure StartTimerRequest where
  task_id : String
  user_id : Option String := none
  note : Option String := none
deriving Repr, DecidableEq

/-- Endpoint `POST /api/time/start` (`start_timer` in `main.py`): parse `task_id`,
check the referenced task exists, insert a running entry. -/
def start_timer (db : DB) (payload : StartTimerRequest) (now : Int) (newId : String) :
    Except HTTPError IdModel × DB :=
  match to_object_id payload.task_id with
  | Except.error e => (Except.error e, db)
  | Except.ok oid =>
    match db.tasks.find? (fun t => t._id == oid) with
    | none => (Except.error ⟨404, "Task not found"⟩, db)
    | some _ =>
      let entry : TimeEntry :=
        { task_id := payload.task_id, user_id := payload.user_id, start_time := now,
          end_time := none, duration_sec := none, note := payload.note }
      let r := insertTimeEntry db entry newId
      (Except.ok ⟨r.1⟩, r.2)

/-- Request model `StopTimerRequest` from `main.py`. -/
structure StopTimerRequest where
  entry_id : String
deriving Repr, DecidableEq

/-- Mongo `update_one({"_id": oid}, {"$set": {end_time, updated_at,
duration_sec}})` on the `timeentry` collection: MongoDB's `update_one`
modifies the first matching document only. -/
def updateFirstTimeEntry (l : List TimeEntryDoc) (oid : String) (endTime dur : Int) :
    List TimeEntryDoc :=
  match l with
  | [] => []
  | e :: rest =>
    if e._id == oid then
      { e with end_time := some endTime, updated_at := some endTime,
               duration_sec := some dur } :: rest
    else
      e :: updateFirstTimeEntry rest oid endTime dur

/-- Endpoint `POST /api/time/stop` (`stop_timer` in `main.py`): parse `entry_id`,
require the entry to exist and to still be running, set `end_time`,
`updated_at` and `duration_sec`, re-read and return the updated record.
The re-read `find_one` returning nothing would make Python's
`updated.pop("_id")` raise, surfacing as HTTP 500. -/
def stop_timer (db : DB) (payload : StopTimerRequest) (now : Int) :
    Except HTTPError TimeEntryOut × DB :=
  match to_object_id payload.entry_id with
  | Except.error e => (Except.error e, db)
  | Except.ok oid =>
    match db.timeentries.find? (fun e => e._id == oid) with
    | none => (Except.error ⟨404, "Time entry not found"⟩, db)
    | some entry =>
      match entry.end_time with
      | some _ => (Except.error ⟨400, "Timer already stopped"⟩, db)
      | none =>
        let duration := durationSeconds (now - entry.start_time)
        let db2 : DB := { db with
          timeentries := updateFirstTimeEntry db.timeentries entry._id now duration }
        match db2.timeentries.find? (fun e => e._id == entry._id) with
        | none => (Except.error ⟨500, "Internal Server Error"⟩, db2)
        | some updated => (Except.ok (timeEntryOut updated), db2)

/-- The filter dict built by `list_time_entries`: empty, `{"task_id": v}`,
or `{"task_id": {"$in": ids}}`. -/
inductive TEFilter where
  | all : TEFilter
  | byTask (t : String) : TEFilter
  | byTaskIn (ts : List String) : TEFilter
deriving Repr, DecidableEq

/-- Whether a time-entry document matches a filter. -/
def teFilterMatches (f : TEFilter) (e : TimeEntryDoc) : Bool :=
  match f with
  | TEFilter.all => true
  | TEFilter.byTask t => e.task_id == t
  | TEFilter.byTaskIn ts => ts.contains e.task_id

/-- The successive filter assignments of `list_time_entries`: a truthy
`task_id` sets the filter, then a truthy `project_id` overwrites it with
the `$in` filter over the project's task identifiers. -/
def buildTEFilter (db : DB) (task_id project_id : Option String) : TEFilter :=
  let f0 : TEFilter := TEFilter.all
  let f1 :=
    match task_id with
    | some v => if v == "" then f0 else TEFilter.byTask v
    | none => f0
  match project_id with
  | some v =>
    if v == "" then f1
    else TEFilter.byTaskIn
      ((db.tasks.filter (fun t => t.project_id == v)).map (fun t => t._id))
  | none => f1

/-- Endpoint `GET /api/time/entries` (`list_time_entries` in `main.py`). -/
def list_time_entries (db : DB) (task_id project_id : Option String) (limit : Option Nat) :
    List TimeEntryOut :=
  let filt := buildTEFilter db task_id project_id
  (applyLimit limit (db.timeentries.filter (teFilterMatches filt))).map timeEntryOut

/-- Response of `GET /api/reports/task/{task_id}`. -/
structure ReportOut where
  task_id : String
  total_seconds : Int
deriving Repr, DecidableEq

/-- Endpoint `GET /api/reports/task/{task_id}` (`report_task` in `main.py`): sum
`duration_sec` over the task's entries, skipping `None` values. -/
def report_task (db : DB) (task_id : String) : ReportOut :=
  let entries := db.timeentries.filter (fun e => e.task_id == task_id)
  let total := entries.foldl
    (fun acc e =>
      match e.duration_sec with
      | some d => acc + d
      | none => acc) 0
  ⟨task_id, total⟩

/-- One API call against the store, with clock readings and generated
identifiers made explicit. -/
inductive Op where
  | createProject (p : Project) (newId : String) : Op
  | listProjects (limit : Option Nat) : Op
  | createTask (t : Task) (newId : String) : Op
  | listTasks (project_id : Option String) (limit : Option Nat) : Op
  | startTimer (r : StartTimerRequest) (now : Int) (newId : String) : Op
  | stopTimer (r : StopTimerRequest) (now : Int) : Op
  | listEntries (task_id project_id : Option String) (limit : Option Nat) : Op
  | reportTask (task_id : String) : Op
deriving Repr, DecidableEq

/-- The store state after executing one API call. -/
def applyOp (db : DB) (op : Op) : DB :=
  match op with
  | Op.createProject p i => (create_project db p i).2
  | Op.listProjects _ => db
  | Op.createTask t i => (create_task db t i).2
  | Op.listTasks _ _ => db
  | Op.startTimer r now i => (start_timer db r now i).2
  | Op.stopTimer r now => (stop_timer db r now).2
  | Op.listEntries _ _ _ => db
  | Op.reportTask _ => db

/-- The spec's TimeEntry invariant: `end_time` and `duration_sec` are
either both null or both set. -/
def entryConsistent (e : TimeEntryDoc) : Prop :=
  e.end_time = none ↔ e.duration_sec = none

instance (e : TimeEntryDoc) : Decidable (entryConsistent e) := by
  unfold entryConsistent
  infer_instance

/-- Every stored time entry satisfies the both-null-or-both-set
invariant. -/
def dbInvariant (db : DB) : Prop :=
  ∀ e ∈ db.timeentries, entryConsistent e

instance (db : DB) : Decidable (dbInvariant db) := by
  unfold dbInvariant
  infer_instance

instance {ε α : Type} [DecidableEq ε] [DecidableEq α] : DecidableEq (Except ε α)
  | Except.ok x, Except.ok y => decidable_of_iff (x = y) (by simp)
  | Except.ok _, Except.error _ => Decidable.isFalse (by simp)
  | Except.error _, Except.ok _ => Decidable.isFalse (by simp)
  | Except.error x, Except.error y => decidable_of_iff (x = y) (by simp)

/-- Sample ObjectId of a stored project. -/
def oidP : String := "aaaaaaaaaaaaaaaaaaaaaaaa"

/-- Sample ObjectId of a second stored project. -/
def oidP2 : String := "abababababababababababab"

/-- Sample ObjectId of a stored task under `oidP`. -/
def oidT : String := "bbbbbbbbbbbbbbbbbbbbbbbb"

/-- Sample ObjectId of a stored task under `oidP2`. -/
def oidT2 : String := "cccccccccccccccccccccccc"

/-- Sample ObjectId of a stored, stopped time entry. -/
def oidE : String := "dddddddddddddddddddddddd"

/-- Sample ObjectId of a stored, running time entry. -/
def oidE2 : String := "eeeeeeeeeeeeeeeeeeeeeeee"

/-- Sample ObjectId of a second stored, stopped time entry. -/
def oidE3 : String := "e0e0e0e0e0e0e0e0e0e0e0e0"

/-- Sample ObjectId used for fresh inserts and for lookups that miss. -/
def oidNew : String := "ffffffffffffffffffffffff"

/-- A sample store: two projects, a task under each, and three time
entries on task `oidT` with durations 120, null (running) and 30. -/
def sampleDB : DB :=
  { projects := [⟨oidP, "Site A", none, none⟩, ⟨oidP2, "Site B", none, some "ACME"⟩],
    tasks := [⟨oidT, oidP, "Dig foundation", none, "open"⟩,
              ⟨oidT2, oidP2, "Pour concrete", none, "open"⟩],
    timeentries := [⟨oidE, oidT, none, 0, some 120000000, some 120, none, some 120000000⟩,
                    ⟨oidE2, oidT, none, 1000000, none, none, none, none⟩,
                    ⟨oidE3, oidT, some "u1", 0, some 30500000, some 30, none, some 30500000⟩] }


theorem find?_eq_some_id {l : List TimeEntryDoc} {oid : String} {entry : TimeEntryDoc}
    (h : l.find? (fun e => e._id == oid) = some entry) : entry._id = oid := by
  have h2 := List.find?_some h
  simpa using h2

theorem updateFirst_find? (l : List TimeEntryDoc) (oid : String) (et d : Int)
    (entry : TimeEntryDoc) (h : l.find? (fun e => e._id == oid) = some entry) :
    (updateFirstTimeEntry l oid et d).find? (fun e => e._id == oid) =
      some { entry with end_time := some et, updated_at := some et, duration_sec := some d } := by
  induction l with
  | nil => simp [List.find?] at h
  | cons a as ih =>
    by_cases ha : (a._id == oid) = true
    · have hae : a = entry := by
        simp only [List.find?_cons, ha] at h
        exact Option.some.inj h
      subst hae
      simp [updateFirstTimeEntry, List.find?_cons, ha]
    · have ha2 : (a._id == oid) = false := by
        simpa using ha
      simp only [List.find?_cons, ha2] at h
      have ih2 := ih h
      simp [updateFirstTimeEntry, List.find?_cons, ha2, ih2]

theorem stop_timer_success (db : DB) (r : StopTimerRequest) (now : Int) (entry : TimeEntryDoc)
    (hv : isValidObjectId r.entry_id = true)
    (hf : db.timeentries.find? (fun e => e._id == r.entry_id) = some entry)
    (he : entry.end_time = none) :
    stop_timer db r now =
      (Except.ok ⟨entry._id, entry.task_id, entry.user_id, entry.start_time, some now,
        some (durationSeconds (now - entry.start_time)), entry.note, some now⟩,
       { db with timeentries := (updateFirstTimeEntry db.timeentries entry._id now (durationSeconds (now - entry.start_time))) }) := by
  have hid : entry._id = r.entry_id := find?_eq_some_id hf
  rw [← hid] at hv hf
  have hup := updateFirst_find? db.timeentries entry._id now
    (durationSeconds (now - entry.start_time)) entry hf
  unfold stop_timer to_object_id
  rw [← hid]
  simp only [hv, if_true, hf, he, hup]
  simp [timeEntryOut]


theorem durationSeconds_eq_fdiv {a : Int} (h : 0 ≤ a) :
    durationSeconds a = Int.fdiv a 1000000 ∧ 0 ≤ durationSeconds a := by
  unfold durationSeconds
  constructor
  · rw [Int.tdiv_eq_ediv h (by norm_num), Int.fdiv_eq_ediv _ (by norm_num)]
  · exact Int.tdiv_nonneg h (by norm_num)

/-- Claim C1: stopping an existing time entry whose `end_time` is null
succeeds: it persists `end_time := now`, `updated_at := now` and
`duration_sec := durationSeconds (now - start_time)` on that entry, and
returns the full updated record with its identifier as the string field
`id`; when `end_time ≥ start_time` the stored duration equals the floor
of the difference in whole seconds and is non-negative. -/
theorem C1_stop_success (db : DB) (r : StopTimerRequest) (now : Int) (entry : TimeEntryDoc)
    (hv : isValidObjectId r.entry_id = true)
    (hf : db.timeentries.find? (fun e => e._id == r.entry_id) = some entry)
    (he : entry.end_time = none) :
    stop_timer db r now =
      (Except.ok ⟨entry._id, entry.task_id, entry.user_id, entry.start_time, some now,
        some (durationSeconds (now - entry.start_time)), entry.note, some now⟩,
       { db with timeentries := (updateFirstTimeEntry db.timeentries entry._id now (durationSeconds (now - entry.start_time))) })
    ∧ (entry.start_time ≤ now →
        durationSeconds (now - entry.start_time) = Int.fdiv (now - entry.start_time) 1000000
        ∧ 0 ≤ durationSeconds (now - entry.start_time)) := by
  refine ⟨stop_timer_success db r now entry hv hf he, fun hle => ?_⟩
  exact durationSeconds_eq_fdiv (by omega)

/-- Witness for C1: stopping the running sample entry at instant
4,500,000 µs (start was 1,000,000 µs) returns it with `end_time` set and
`duration_sec = 3`. -/
theorem C1_stop_success_witness :
    (stop_timer sampleDB ⟨oidE2⟩ 4500000).1 =
      Except.ok ⟨oidE2, oidT, none, 1000000, some 4500000, some 3, none, some 4500000⟩
    ∧ (0 : Int) ≤ 3 := by
  have h := C1_stop_success sampleDB ⟨oidE2⟩ 4500000
      ⟨oidE2, oidT, none, 1000000, none, none, none, none⟩ (by decide) (by decide) rfl
  constructor
  · rw [h.1]
    rfl
  · exact (h.2 (by decide)).2

theorem stop_already_iff (db : DB) (r : StopTimerRequest) (now : Int) :
    (stop_timer db r now).1 = Except.error ⟨400, "Timer already stopped"⟩ ↔
      (isValidObjectId r.entry_id = true ∧
        ∃ entry, db.timeentries.find? (fun e => e._id == r.entry_id) = some entry ∧
          entry.end_time ≠ none) := by
  constructor
  · intro h
    unfold stop_timer to_object_id at h
    by_cases hv : isValidObjectId r.entry_id = true
    · simp only [hv, if_true] at h
      cases hfind : db.timeentries.find? (fun e => e._id == r.entry_id) with
      | none => simp [hfind] at h
      | some entry =>
        simp only [hfind] at h
        cases hend : entry.end_time with
        | some v => exact ⟨hv, entry, rfl, by simp [hend]⟩
        | none =>
          exfalso
          have hid : entry._id = r.entry_id := find?_eq_some_id hfind
          rw [← hid] at hfind
          have hup := updateFirst_find? db.timeentries entry._id now
            (durationSeconds (now - entry.start_time)) entry hfind
          simp [hend, hup] at h
    · simp only [Bool.not_eq_true] at hv
      simp [hv] at h
  · rintro ⟨hv, entry, hfind, hne⟩
    unfold stop_timer to_object_id
    simp only [hv, if_true, hfind]
    cases hend : entry.end_time with
    | none => exact absurd hend hne
    | some v => simp [hend]

theorem stop_timer_ok_state (db : DB) (r : StopTimerRequest) (now : Int) (out : TimeEntryOut)
    (db2 : DB) (h : stop_timer db r now = (Except.ok out, db2)) :
    isValidObjectId r.entry_id = true ∧
    ∃ u, db2.timeentries.find? (fun e => e._id == r.entry_id) = some u ∧
      u.end_time = some now := by
  unfold stop_timer to_object_id at h
  by_cases hv : isValidObjectId r.entry_id = true
  · simp only [hv, if_true] at h
    cases hfind : db.timeentries.find? (fun e => e._id == r.entry_id) with
    | none => simp [hfind] at h
    | some entry =>
      simp only [hfind] at h
      cases hend : entry.end_time with
      | some v => simp [hend] at h
      | none =>
        have hid : entry._id = r.entry_id := find?_eq_some_id hfind
        rw [← hid] at hfind
        have hup := updateFirst_find? db.timeentries entry._id now
          (durationSeconds (now - entry.start_time)) entry hfind
        simp only [hend, hup] at h
        rw [Prod.mk.injEq] at h
        obtain ⟨h1, h2⟩ := h
        refine ⟨hv, ?_⟩
        rw [← h2, ← hid]
        exact ⟨_, hup, rfl⟩
  · simp only [Bool.not_eq_true] at hv
    simp [hv] at h

theorem stop_twice (db : DB) (r : StopTimerRequest) (now now2 : Int) (out : TimeEntryOut)
    (db2 : DB) (h : stop_timer db r now = (Except.ok out, db2)) :
    (stop_timer db2 r now2).1 = Except.error ⟨400, "Timer already stopped"⟩ := by
  obtain ⟨hv, u, hfind, hend⟩ := stop_timer_ok_state db r now out db2 h
  exact (stop_already_iff db2 r now2).mpr ⟨hv, u, hfind, by simp [hend]⟩


/-- Claim C2: a stop call fails with HTTP 400 "Timer already stopped"
precisely when the entry referenced by `entry_id` exists (well-formed id
resolving to a stored entry) and its `end_time` is already set; in
particular after a successful stop, a second stop on the same id fails
with that error. -/
theorem C2_already_stopped (db : DB) (r : StopTimerRequest) (now now2 : Int) :
    ((stop_timer db r now).1 = Except.error ⟨400, "Timer already stopped"⟩ ↔
      (isValidObjectId r.entry_id = true ∧
        ∃ entry, db.timeentries.find? (fun e => e._id == r.entry_id) = some entry ∧
          entry.end_time ≠ none))
    ∧ (∀ out db2, stop_timer db r now = (Except.ok out, db2) →
        (stop_timer db2 r now2).1 = Except.error ⟨400, "Timer already stopped"⟩) :=
  ⟨stop_already_iff db r now, fun out db2 h => stop_twice db r now now2 out db2 h⟩

/-- Witness for C2: stopping the running sample entry and then stopping
it again yields HTTP 400 "Timer already stopped" on the second call. -/
theorem C2_already_stopped_witness :
    (stop_timer (stop_timer sampleDB ⟨oidE2⟩ 4500000).2 ⟨oidE2⟩ 9000000).1 =
      Except.error ⟨400, "Timer already stopped"⟩ :=
  (C2_already_stopped sampleDB ⟨oidE2⟩ 4500000 9000000).2
    ⟨oidE2, oidT, none, 1000000, some 4500000, some 3, none, some 4500000⟩
    (stop_timer sampleDB ⟨oidE2⟩ 4500000).2 (by decide)

theorem updateFirst_mem_cases (l : List TimeEntryDoc) (oid : String) (et d : Int) :
    ∀ e ∈ updateFirstTimeEntry l oid et d,
      e ∈ l ∨ (e.end_time = some et ∧ e.duration_sec = some d) := by
  induction l with
  | nil =>
    intro e he
    simp [updateFirstTimeEntry] at he
  | cons a as ih =>
    intro e he
    unfold updateFirstTimeEntry at he
    by_cases ha : (a._id == oid) = true
    · rw [if_pos ha] at he
      rcases List.mem_cons.mp he with h1 | h1
      · subst h1
        exact Or.inr ⟨rfl, rfl⟩
      · exact Or.inl (List.mem_cons_of_mem _ h1)
    · rw [if_neg ha] at he
      rcases List.mem_cons.mp he with h1 | h1
      · subst h1
        exact Or.inl (List.mem_cons_self _ _)
      · rcases ih e h1 with h2 | h2
        · exact Or.inl (List.mem_cons_of_mem _ h2)
        · exact Or.inr h2

/-- Claim C3: every API operation preserves the invariant that a stored
time entry's `end_time` and `duration_sec` are both null or both set:
`start_timer` inserts an entry with both null, a successful `stop_timer`
sets both in the same update, and no other operation touches the
`timeentry` collection. -/
theorem C3_invariant (db : DB) (op : Op) (h : dbInvariant db) :
    dbInvariant (applyOp db op) := by
  cases op with
  | createProject p i => exact fun e he => h e he
  | listProjects l => exact fun e he => h e he
  | listTasks pid l => exact fun e he => h e he
  | listEntries tid pid l => exact fun e he => h e he
  | reportTask tid => exact fun e he => h e he
  | createTask t i =>
    intro e he
    have he2 : e ∈ ((create_task db t i).2).timeentries := he
    clear he
    unfold create_task at he2
    rcases hx : to_object_id t.project_id with e2 | oid
    · simp only [hx] at he2
      exact h e he2
    · simp only [hx] at he2
      rcases hf : db.projects.find? (fun p => p._id == oid) with _ | p
      · simp only [hf] at he2
        exact h e he2
      · simp only [hf] at he2
        exact h e he2
  | startTimer r now i =>
    intro e he
    have he2 : e ∈ ((start_timer db r now i).2).timeentries := he
    clear he
    unfold start_timer at he2
    rcases hx : to_object_id r.task_id with e2 | oid
    · simp only [hx] at he2
      exact h e he2
    · simp only [hx] at he2
      rcases hf : db.tasks.find? (fun t => t._id == oid) with _ | t
      · simp only [hf] at he2
        exact h e he2
      · simp only [hf] at he2
        simp only [insertTimeEntry] at he2
        rcases List.mem_append.mp he2 with h1 | h1
        · exact h e h1
        · have h2 : e = ⟨i, r.task_id, r.user_id, now, none, none, r.note, none⟩ := by
            simpa using h1
          subst h2
          exact ⟨fun _ => rfl, fun _ => rfl⟩
  | stopTimer r now =>
    intro e he
    have he2 : e ∈ ((stop_timer db r now).2).timeentries := he
    clear he
    unfold stop_timer at he2
    rcases hx : to_object_id r.entry_id with e2 | oid
    · simp only [hx] at he2
      exact h e he2
    · simp only [hx] at he2
      rcases hf : db.timeentries.find? (fun e2 => e2._id == oid) with _ | entry
      · simp only [hf] at he2
        exact h e he2
      · simp only [hf] at he2
        rcases hend : entry.end_time with _ | v
        · simp only [hend] at he2
          split at he2
          · rcases updateFirst_mem_cases db.timeentries entry._id now _ e he2 with h1 | h1
            · exact h e h1
            · simp [entryConsistent, h1.1, h1.2]
          · rcases updateFirst_mem_cases db.timeentries entry._id now _ e he2 with h1 | h1
            · exact h e h1
            · simp [entryConsistent, h1.1, h1.2]
        · simp only [hend] at he2
          exact h e he2

/-- Witness for C3: the sample store satisfies the invariant, and still
does after stopping its running entry. -/
theorem C3_invariant_witness :
    dbInvariant sampleDB ∧ dbInvariant (applyOp sampleDB (Op.stopTimer ⟨oidE2⟩ 4500000)) :=
  ⟨by decide, C3_invariant sampleDB (Op.stopTimer ⟨oidE2⟩ 4500000) (by decide)⟩

/-- Claim C10: on the three write endpoints (`create_task`,
`start_timer`, `stop_timer`), every error is raised before any insert or
update is issued, so an error response leaves the store unchanged. -/
theorem C10_no_write_on_error (db : DB) :
    (∀ t i err, (create_task db t i).1 = Except.error err → (create_task db t i).2 = db)
    ∧ (∀ r now i err, (start_timer db r now i).1 = Except.error err →
        (start_timer db r now i).2 = db)
    ∧ (∀ r now err, (stop_timer db r now).1 = Except.error err →
        (stop_timer db r now).2 = db) := by
  refine ⟨?_, ?_, ?_⟩
  · intro t i err h
    unfold create_task at h ⊢
    rcases hx : to_object_id t.project_id with e2 | oid
    · simp [hx]
    · simp only [hx] at h ⊢
      rcases hf : db.projects.find? (fun p => p._id == oid) with _ | p
      · simp [hf]
      · simp only [hf] at h
        simp at h
  · intro r now i err h
    unfold start_timer at h ⊢
    rcases hx : to_object_id r.task_id with e2 | oid
    · simp [hx]
    · simp only [hx] at h ⊢
      rcases hf : db.tasks.find? (fun t => t._id == oid) with _ | t
      · simp [hf]
      · simp only [hf] at h
        simp at h
  · intro r now err h
    unfold stop_timer at h ⊢
    rcases hx : to_object_id r.entry_id with e2 | oid
    · simp [hx]
    · simp only [hx] at h ⊢
      rcases hf : db.timeentries.find? (fun e => e._id == oid) with _ | entry
      · simp [hf]
      · simp only [hf] at h ⊢
        rcases hend : entry.end_time with _ | v
        · simp only [hend] at h ⊢
          have hid : entry._id = oid := find?_eq_some_id hf
          rw [← hid] at hf
          have hup := updateFirst_find? db.timeentries entry._id now
            (durationSeconds (now - entry.start_time)) entry hf
          simp only [hup] at h
          simp at h
        · simp [hend]

/-- Witness for C10: a malformed-id task creation and a stop of an
already-stopped entry both leave the sample store unchanged. -/
theorem C10_no_write_on_error_witness :
    (create_task sampleDB ⟨"nothex", "Grade road", none, "open"⟩ oidNew).2 = sampleDB
    ∧ (stop_timer sampleDB ⟨oidE⟩ 9000000).2 = sampleDB :=
  ⟨(C10_no_write_on_error sampleDB).1 ⟨"nothex", "Grade road", none, "open"⟩ oidNew
      ⟨400, "Invalid id"⟩ (by decide),
   (C10_no_write_on_error sampleDB).2.2 ⟨oidE⟩ 9000000
      ⟨400, "Timer already stopped"⟩ (by decide)⟩

/-- Claim C5: task creation fails with HTTP 400 "Invalid id" when
`project_id` is malformed, with HTTP 404 "Project not found" when the
well-formed `project_id` resolves to no stored project, and otherwise
persists the task and returns the generated identifier. -/
theorem C5_create_task (db : DB) (t : Task) (newId : String) :
    (isValidObjectId t.project_id = false →
      create_task db t newId = (Except.error ⟨400, "Invalid id"⟩, db))
    ∧ (isValidObjectId t.project_id = true →
        db.projects.find? (fun p => p._id == t.project_id) = none →
        create_task db t newId = (Except.error ⟨404, "Project not found"⟩, db))
    ∧ (∀ p, isValidObjectId t.project_id = true →
        db.projects.find? (fun p2 => p2._id == t.project_id) = some p →
        create_task db t newId =
          (Except.ok ⟨newId⟩,
           { db with tasks := db.tasks ++ [⟨newId, t.project_id, t.name, t.description, t.status⟩] })) := by
  refine ⟨?_, ?_, ?_⟩
  · intro hv
    unfold create_task to_object_id
    simp [hv]
  · intro hv hf
    unfold create_task to_object_id
    simp [hv, hf]
  · intro p hv hf
    unfold create_task to_object_id
    simp [hv, hf, insertTask]

/-- Witness for C5: all three branches at concrete inputs on the sample
store. -/
theorem C5_create_task_witness :
    create_task sampleDB ⟨oidP, "Pour slab", none, "open"⟩ oidNew =
      (Except.ok ⟨oidNew⟩,
       { sampleDB with tasks := sampleDB.tasks ++ [⟨oidNew, oidP, "Pour slab", none, "open"⟩] })
    ∧ create_task sampleDB ⟨"zz", "X", none, "open"⟩ oidNew =
        (Except.error ⟨400, "Invalid id"⟩, sampleDB)
    ∧ create_task sampleDB ⟨oidNew, "X", none, "open"⟩ oidNew =
        (Except.error ⟨404, "Project not found"⟩, sampleDB) :=
  ⟨(C5_create_task sampleDB ⟨oidP, "Pour slab", none, "open"⟩ oidNew).2.2
      ⟨oidP, "Site A", none, none⟩ (by decide) (by decide),
   (C5_create_task sampleDB ⟨"zz", "X", none, "open"⟩ oidNew).1 (by decide),
   (C5_create_task sampleDB ⟨oidNew, "X", none, "open"⟩ oidNew).2.1 (by decide) (by decide)⟩

/-- Claim C8: starting a timer fails with HTTP 400 "Invalid id" when
`task_id` is malformed and HTTP 404 "Task not found" when it resolves to
no stored task; on success it inserts a running entry with
`start_time := now`, `end_time = null`, `duration_sec = null` and
returns the generated identifier. -/
theorem C8_start_timer (db : DB) (r : StartTimerRequest) (now : Int) (newId : String) :
    (isValidObjectId r.task_id = false →
      start_timer db r now newId = (Except.error ⟨400, "Invalid id"⟩, db))
    ∧ (isValidObjectId r.task_id = true →
        db.tasks.find? (fun t => t._id == r.task_id) = none →
        start_timer db r now newId = (Except.error ⟨404, "Task not found"⟩, db))
    ∧ (∀ t, isValidObjectId r.task_id = true →
        db.tasks.find? (fun t2 => t2._id == r.task_id) = some t →
        start_timer db r now newId =
          (Except.ok ⟨newId⟩,
           { db with timeentries := db.timeentries ++
              [⟨newId, r.task_id, r.user_id, now, none, none, r.note, none⟩] })) := by
  refine ⟨?_, ?_, ?_⟩
  · intro hv
    unfold start_timer to_object_id
    simp [hv]
  · intro hv hf
    unfold start_timer to_object_id
    simp [hv, hf]
  · intro t hv hf
    unfold start_timer to_object_id
    simp [hv, hf, insertTimeEntry]

/-- Witness for C8: starting a timer on the sample task inserts a
running entry; a malformed and an unknown task id fail. -/
theorem C8_start_timer_witness :
    start_timer sampleDB ⟨oidT, some "u2", none⟩ 7000000 oidNew =
      (Except.ok ⟨oidNew⟩,
       { sampleDB with timeentries := sampleDB.timeentries ++
          [⟨oidNew, oidT, some "u2", 7000000, none, none, none, none⟩] })
    ∧ start_timer sampleDB ⟨"zz", none, none⟩ 7000000 oidNew =
        (Except.error ⟨400, "Invalid id"⟩, sampleDB)
    ∧ start_timer sampleDB ⟨oidNew, none, none⟩ 7000000 oidNew =
        (Except.error ⟨404, "Task not found"⟩, sampleDB) :=
  ⟨(C8_start_timer sampleDB ⟨oidT, some "u2", none⟩ 7000000 oidNew).2.2
      ⟨oidT, oidP, "Dig foundation", none, "open"⟩ (by decide) (by decide),
   (C8_start_timer sampleDB ⟨"zz", none, none⟩ 7000000 oidNew).1 (by decide),
   (C8_start_timer sampleDB ⟨oidNew, none, none⟩ 7000000 oidNew).2.1 (by decide) (by decide)⟩

/-- Counterexample for C4: a project-creation request whose `name` is
the empty string passes validation (Pydantic only requires the field to
be present) and is persisted; it is not rejected. -/
theorem C4_counterexample :
    validate_project { name := some "", description := none, client := none } =
      some { name := "", description := none, client := none }
    ∧ create_project ⟨[], [], []⟩ { name := "", description := none, client := none }
        "507f1f77bcf86cd799439011" =
      (Except.ok ⟨"507f1f77bcf86cd799439011"⟩,
       ⟨[⟨"507f1f77bcf86cd799439011", "", none, none⟩], [], []⟩) :=
  ⟨rfl, rfl⟩

/-- Claim C4 (amended): project creation validates only that the
required `name` field is present: a body without `name` is rejected by
validation, while any present `name` — the empty string included — is
accepted, the project persisted, and the generated identifier
returned. -/
theorem C4_name_required_only (p : ProjectPayload) (newId : String) :
    (p.name = none → validate_project p = none)
    ∧ (∀ n, p.name = some n →
        validate_project p = some ⟨n, p.description, p.client⟩
        ∧ ∀ db, create_project db ⟨n, p.description, p.client⟩ newId =
            (Except.ok ⟨newId⟩,
             { db with projects := db.projects ++ [⟨newId, n, p.description, p.client⟩] })) := by
  refine ⟨fun hn => ?_, fun n hn => ⟨?_, fun db => ?_⟩⟩
  · unfold validate_project
    rw [hn]
  · unfold validate_project
    rw [hn]
  · rfl

/-- Witness for C4 (amended): the empty-string name is accepted and
persisted on the empty store. -/
theorem C4_name_required_only_witness :
    validate_project { name := some "", description := none, client := none } =
      some { name := "", description := none, client := none }
    ∧ create_project ⟨[], [], []⟩ { name := "", description := none, client := none }
        "507f1f77bcf86cd799439012" =
      (Except.ok ⟨"507f1f77bcf86cd799439012"⟩,
       ⟨[⟨"507f1f77bcf86cd799439012", "", none, none⟩], [], []⟩) := by
  have h := (C4_name_required_only
      { name := some "", description := none, client := none }
      "507f1f77bcf86cd799439012").2 "" rfl
  exact ⟨h.1, h.2 ⟨[], [], []⟩⟩

theorem foldl_add_duration (l : List TimeEntryDoc) (acc : Int) :
    l.foldl (fun a e =>
      match e.duration_sec with
      | some d => a + d
      | none => a) acc =
    acc + (l.filterMap (fun e => e.duration_sec)).sum := by
  induction l generalizing acc with
  | nil => simp
  | cons a as ih =>
    cases hd : a.duration_sec with
    | none =>
      simp only [List.foldl_cons, hd, List.filterMap_cons]
      exact ih acc
    | some d =>
      simp only [List.foldl_cons, hd, List.filterMap_cons, List.sum_cons]
      rw [ih]
      ring

/-- Claim C6: `report_task` returns the task id with the sum of
`duration_sec` over that task's entries where it is non-null; the sample
task whose entries carry durations 120, null, 30 reports 150, and an id
with no entries reports 0 rather than an error. -/
theorem C6_report_total :
    (∀ db tid, report_task db tid =
      ⟨tid, ((db.timeentries.filter (fun e => e.task_id == tid)).filterMap
        (fun e => e.duration_sec)).sum⟩)
    ∧ report_task sampleDB oidT = ⟨oidT, 150⟩
    ∧ report_task sampleDB oidNew = ⟨oidNew, 0⟩ := by
  refine ⟨fun db tid => ?_, by decide, by decide⟩
  unfold report_task
  dsimp only
  rw [foldl_add_duration]
  simp

/-- Claim C7: when both a non-empty `task_id` and a non-empty
`project_id` are supplied to the time-entry listing, the project-derived
task-id filter replaces the direct task filter: the result equals the
listing with no task filter, namely the entries whose task belongs to
the project (up to the limit). -/
theorem C7_project_filter_overrides (db : DB) (t p : String) (limit : Option Nat)
    (_ht : t ≠ "") (hp : p ≠ "") :
    list_time_entries db (some t) (some p) limit = list_time_entries db none (some p) limit
    ∧ list_time_entries db (some t) (some p) limit =
        (applyLimit limit (db.timeentries.filter (fun e =>
          ((db.tasks.filter (fun tk => tk.project_id == p)).map
            (fun tk => tk._id)).contains e.task_id))).map timeEntryOut := by
  have hp2 : (p == "") = false := by
    simpa using hp
  have hb : buildTEFilter db (some t) (some p) =
      TEFilter.byTaskIn
        ((db.tasks.filter (fun tk => tk.project_id == p)).map (fun tk => tk._id)) := by
    unfold buildTEFilter
    simp [hp2]
  have hb2 : buildTEFilter db none (some p) =
      TEFilter.byTaskIn
        ((db.tasks.filter (fun tk => tk.project_id == p)).map (fun tk => tk._id)) := by
    unfold buildTEFilter
    simp [hp2]
  constructor
  · unfold list_time_entries
    rw [hb, hb2]
  · unfold list_time_entries
    rw [hb]
    rfl

/-- Witness for C7: listing the sample store with the other project's
task id and project `oidP` equals the listing with no task filter. -/
theorem C7_project_filter_overrides_witness :
    list_time_entries sampleDB (some oidT2) (some oidP) none =
      list_time_entries sampleDB none (some oidP) none :=
  (C7_project_filter_overrides sampleDB oidT2 oidP none (by decide) (by decide)).1

/-- Claim C9: an empty-string filter value is treated as an absent
filter: `list_tasks` with `project_id = ""` returns all tasks (up to the
limit), and `list_time_entries` applies no filter for an empty-string
`task_id` or `project_id`. -/
theorem C9_empty_string_filters (db : DB) (limit : Option Nat) :
    list_tasks db (some "") limit = list_tasks db none limit
    ∧ list_tasks db (some "") limit = (applyLimit limit db.tasks).map taskOut
    ∧ (∀ pid, list_time_entries db (some "") pid limit = list_time_entries db none pid limit)
    ∧ (∀ tid, list_time_entries db tid (some "") limit = list_time_entries db tid none limit) := by
  refine ⟨rfl, rfl, fun pid => rfl, fun tid => rfl⟩

end CTT
